import Mathlib

/-!
Verification of the blog-listing pipeline of a static blog site
(jidalii.github.io): collection loading, sticky-then-date ordering,
pagination into `/blog/{page}` pages, and the home page's truncated view.

The embedding models:
* `src/consts.ts` — the `site` configuration constants;
* `src/pages/blog/[page].astro` — `getStaticPaths`, which paginates the
  sticky-ordered collection with Astro's `paginate` helper;
* `src/pages/index.astro` — the home-page frontmatter script (lodash
  `ceil`/`divide` page count, `orderBySticky`, `splice` truncation, and the
  conditional `Pagination` component);
* Astro's `paginate` (framework code), following its implementation:
  `lastPage = max(1, ceil(data.length / pageSize))`, page `k` holding
  `data.slice((k-1)*pageSize, min(k*pageSize, data.length))`, with URLs
  derived from the `/blog/[page]` route.

Dates are modelled as natural numbers (e.g. `20250110` for 2025-01-10);
only their ordering matters to the pipeline.
-/

namespace Blog

/-- A blog post record as loaded from a content file's frontmatter.
The five markdown files under `src/content/blog` carry `title`,
`description`, `date`, `category` and `tags`; the `sticky` flag comes from
the content-collection schema.  Modelled from the spec for the schema part:
the collection schema file is not among the sources, and the spec lists the
post record's fields as title, date, category, tags and a sticky flag. -/
structure Post where
  title : String
  description : String
  date : Nat
  category : String
  tags : List String
  sticky : Bool
deriving Repr, DecidableEq

/-- The numeric and textual site constants from `src/consts.ts` that the
listing pipeline reads (`site.postPageSize` is the one the claims cite). -/
structure SiteConfig where
  title : String
  author : String
  url : String
  recentBlogSize : Nat
  archivePageSize : Nat
  postPageSize : Nat
  feedPageSize : Nat
deriving Repr, DecidableEq

/-- The `site` object of `src/consts.ts` (the fields the pipeline uses). -/
def site : SiteConfig where
  title := "Jida's Blog"
  author := "Jida-Li"
  url := "https://jidalii.github.io"
  recentBlogSize := 5
  archivePageSize := 25
  postPageSize := 10
  feedPageSize := 20

/-- Modelled from the spec: `src/utils/getCollectionByName.ts` is not among
the sources; per the spec it is the collection loader returning the blog
post records of the named collection.  The loaded collection is passed in
as a parameter (the `"blog"` name selects it), so the loader returns its
input unchanged. -/
def getCollectionByName (blogCollection : List Post) : List Post :=
  blogCollection

/-- The comparator behind the sticky ordering: `a` may come before `b`
when `a` is sticky and `b` is not, or when both have the same stickiness
and `a`'s date is the more recent (dates descending, newest first). -/
def stickyLe (a b : Post) : Bool :=
  if a.sticky == b.sticky then decide (b.date ≤ a.date) else a.sticky

/-- The comparator `stickyLe` as a decidable relation, for use with
`List.insertionSort`. -/
def stickyLeP (a b : Post) : Prop :=
  stickyLe a b = true

instance : DecidableRel stickyLeP := fun a b =>
  inferInstanceAs (Decidable (stickyLe a b = true))

instance : IsTotal Post stickyLeP where
  total a b := by
    unfold stickyLeP stickyLe
    cases ha : a.sticky <;> cases hb : b.sticky <;> simp [ha, hb] <;> omega

instance : IsTrans Post stickyLeP where
  trans a b c hab hbc := by
    unfold stickyLeP stickyLe at hab hbc ⊢
    cases ha : a.sticky <;> cases hb : b.sticky <;> cases hc : c.sticky <;>
      simp [ha, hb, hc] at hab hbc ⊢ <;> omega

/-- Modelled from the spec: `src/utils/orderBySticky.ts` is not among the
sources; per the spec it is a pure, stateless sort placing sticky posts
first regardless of date ordering and keeping posts of equal stickiness in
date order (newest first).  Modelled as a stable sort by `stickyLeP`. -/
def orderBySticky (posts : List Post) : List Post :=
  posts.insertionSort stickyLeP

/-- Ceiling division, `⌈n / m⌉` on naturals: the value of JavaScript
`Math.ceil(n / m)` (and lodash `_.ceil(_.divide(n, m))`) for these sizes. -/
def ceilNat (n m : Nat) : Nat :=
  (n + m - 1) / m

/-- The `url` member of an Astro pagination page: the current page's route
plus optional previous/next routes. -/
structure PageUrl where
  current : String
  prev : Option String
  next : Option String
deriving Repr, DecidableEq

/-- One page produced by Astro's `paginate` for the `/blog/[page]` route:
the `page` prop received by `src/pages/blog/[page].astro`.  `stop` models
the `end` member (last index of the slice, `-1` on an empty page). -/
structure PageRecord where
  data : List Post
  start : Nat
  stop : Int
  size : Nat
  total : Nat
  currentPage : Nat
  lastPage : Nat
  url : PageUrl
deriving Repr, DecidableEq

/-- The page record Astro's `paginate` builds for 0-based page index `num`
of the `/blog/[page]` route: page number `num+1`, holding
`data.slice(num*pageSize, min(num*pageSize+pageSize, length))`, with
prev/next URLs absent on the first/last page respectively. -/
def pageAt (data : List Post) (pageSize num : Nat) : PageRecord :=
  let lastPage := max 1 (ceilNat data.length pageSize)
  let pageNum := num + 1
  let start := num * pageSize
  let finish := min (start + pageSize) data.length
  { data := (data.drop start).take (finish - start)
    start := start
    stop := (finish : Int) - 1
    size := pageSize
    total := data.length
    currentPage := pageNum
    lastPage := lastPage
    url :=
      { current := "/blog/" ++ toString pageNum
        prev := if pageNum == 1 then none else some ("/blog/" ++ toString (pageNum - 1))
        next := if pageNum == lastPage then none else some ("/blog/" ++ toString (pageNum + 1)) } }

/-- Astro's `paginate` helper applied to the `/blog/[page]` route, from its
implementation in the framework: `lastPage = max(1, ceil(length/pageSize))`
(so an empty collection still yields page 1), one record per page. -/
def paginate (data : List Post) (pageSize : Nat) : List PageRecord :=
  (List.range (max 1 (ceilNat data.length pageSize))).map (pageAt data pageSize)

/-- The `getStaticPaths` function of `src/pages/blog/[page].astro`: load the blog
collection, order it sticky-first, and paginate with `site.postPageSize`. -/
def getStaticPaths (posts : List Post) : List PageRecord :=
  paginate (orderBySticky (getCollectionByName posts)) site.postPageSize

/-- JavaScript `Array.prototype.splice(start, deleteCount)` on a list:
returns the removed elements together with the mutated array's new
contents. -/
def splice (arr : List Post) (start deleteCount : Nat) : List Post × List Post :=
  ((arr.drop start).take deleteCount, arr.take start ++ arr.drop (start + deleteCount))

/-- The values computed by the frontmatter script of `src/pages/index.astro`:
the fixed `currentPage`, the lodash page count, the posts the page renders,
and the contents of the array `blogs` refers to once the script has run
(`orderBySticky` is pure per the spec, so the `splice` truncation acts on
the fresh sorted array, not on the loaded one). -/
structure IndexPageResult where
  currentPage : Nat
  totalPage : Nat
  displayed : List Post
  blogsAfter : List Post
deriving Repr, DecidableEq

/-- The frontmatter script of `src/pages/index.astro`: page count via
`_.ceil(_.divide(blogs.length, site.postPageSize))`, sticky ordering, and
`sortedPosts = sortedPosts.splice(0, site.postPageSize)` only when more
than a page of posts exists. -/
def indexPage (posts : List Post) : IndexPageResult :=
  let blogs := getCollectionByName posts
  let totalPage := ceilNat blogs.length site.postPageSize
  let sorted := orderBySticky blogs
  let displayed :=
    if site.postPageSize < sorted.length then (splice sorted 0 site.postPageSize).1
    else sorted
  { currentPage := 1
    totalPage := totalPage
    displayed := displayed
    blogsAfter := blogs }

/-- The props the home page hands to its `Pagination` component. -/
structure HomePaginationProps where
  currentPage : Nat
  totalPage : Nat
  prevUrl : String
  nextUrl : String
deriving Repr, DecidableEq

/-- The conditional `Pagination` element of `src/pages/index.astro`:
rendered only when `totalPage > 1`, with `currentPage`, `totalPage`, and
`url={{ prev: "", next: "/blog/2" }}`. -/
def indexPagination (posts : List Post) : Option HomePaginationProps :=
  let r := indexPage posts
  if 1 < r.totalPage then
    some { currentPage := r.currentPage
           totalPage := r.totalPage
           prevUrl := ""
           nextUrl := "/blog/2" }
  else none

/-- The frontmatter scripts lifted over a fallible collection load
(`await getCollectionByName(...)`): `src/pages/blog/[page].astro` has no
try/catch, so a rejected load propagates unchanged. -/
def loadToPages {ε : Type} (load : Except ε (List Post)) : Except ε (List PageRecord) :=
  match load with
  | Except.error e => Except.error e
  | Except.ok posts => Except.ok (getStaticPaths posts)

/-- Same lifting for the home page's script (`src/pages/index.astro`),
which likewise has no error handling of its own. -/
def loadToIndex {ε : Type} (load : Except ε (List Post)) : Except ε IndexPageResult :=
  match load with
  | Except.error e => Except.error e
  | Except.ok posts => Except.ok (indexPage posts)

/-- The frontmatter record of
`src/content/blog/golang/go_scheduler.md` (date 2025-01-10); its file
carries no `sticky` key, so the schema default `false` applies. -/
def goSchedulerPost : Post where
  title := "Goroutines and Go Scheduler"
  description := "This blog introduces you to how goroutines work and the Go's G-P-M model."
  date := 20250110
  category := "Golang"
  tags := ["Goroutine", "Scheduler"]
  sticky := false

/-- A small concrete collection (three posts, one sticky) used to witness
the theorems on a concrete input. -/
def demoPosts : List Post :=
  [ { title := "a", description := "", date := 5, category := "", tags := [], sticky := false },
    { title := "b", description := "", date := 9, category := "", tags := [], sticky := true },
    { title := "c", description := "", date := 7, category := "", tags := [], sticky := false } ]

/-- A concrete collection of eleven posts (more than one page of ten),
used to witness the multi-page clauses on a concrete input. -/
def demoPosts11 : List Post :=
  (List.range 11).map fun i =>
    { title := "", description := "", date := i, category := "", tags := [], sticky := false }

/-- The pagination props the home page passes for an eleven-post
collection: page 1 of 2, no previous page, next page `/blog/2`. -/
def homeProps11 : HomePaginationProps where
  currentPage := 1
  totalPage := 2
  prevUrl := ""
  nextUrl := "/blog/2"

/- ### Helper lemmas -/

/-- The `finish - start` slice width of a page always amounts to taking at
most `pageSize` elements of the remaining list. -/
theorem slice_take (l : List Post) (s ps : Nat) :
    (l.drop s).take (min (s + ps) l.length - s) = (l.drop s).take ps := by
  rcases le_or_lt (s + ps) l.length with h | h
  · rw [min_eq_left h]
    congr 1
    omega
  · rw [min_eq_right (Nat.le_of_lt h)]
    rw [List.take_of_length_le, List.take_of_length_le]
    · simp [List.length_drop]
      omega
    · simp [List.length_drop]

/-- Paginate produces one record per page index below `lastPage`. -/
theorem length_paginate (data : List Post) (ps : Nat) :
    (paginate data ps).length = max 1 (ceilNat data.length ps) := by
  simp [paginate]

/-- The `n`-th record of `paginate` is the page at 0-based index `n`. -/
theorem paginate_get (data : List Post) (ps n : Nat)
    (h : n < (paginate data ps).length) :
    (paginate data ps).get ⟨n, h⟩ = pageAt data ps n := by
  simp [paginate]

/-- The posts on the page at 0-based index `num` are the `pageSize`-wide
slice of the input starting at `num * pageSize`. -/
theorem pageAt_data (data : List Post) (ps num : Nat) :
    (pageAt data ps num).data = (data.drop (num * ps)).take ps := by
  simpa [pageAt] using slice_take data (num * ps) ps

/-- Concatenating the `k` leading `pageSize`-wide slices of a list yields
its `k * pageSize`-element prefix. -/
theorem join_chunks (l : List Post) (ps : Nat) :
    ∀ k, ((List.range k).map fun num => (l.drop (num * ps)).take ps).flatten
      = l.take (k * ps) := by
  intro k
  induction k with
  | zero => simp
  | succ k ih =>
      rw [List.range_succ, List.map_append, List.flatten_append, ih]
      simp [Nat.succ_mul, List.take_add]

/-- Sorting does not change the number of posts. -/
theorem orderBySticky_length (posts : List Post) :
    (orderBySticky posts).length = posts.length :=
  List.length_insertionSort _ _

/-- The posts of the `n`-th generated blog page are the `pageSize`-wide
slice of the sticky ordering starting at `n * pageSize`. -/
theorem getStaticPaths_get_data (posts : List Post) (n : Nat)
    (h : n < (getStaticPaths posts).length) :
    ((getStaticPaths posts).get ⟨n, h⟩).data
      = ((orderBySticky posts).drop (n * site.postPageSize)).take site.postPageSize :=
  (congrArg PageRecord.data
      (paginate_get (orderBySticky posts) site.postPageSize n h)).trans
    (pageAt_data (orderBySticky posts) site.postPageSize n)

/-- Every generated blog page carries the common `lastPage` count. -/
theorem getStaticPaths_get_lastPage (posts : List Post) (n : Nat)
    (h : n < (getStaticPaths posts).length) :
    ((getStaticPaths posts).get ⟨n, h⟩).lastPage
      = max 1 (ceilNat (orderBySticky posts).length site.postPageSize) :=
  congrArg PageRecord.lastPage
    (paginate_get (orderBySticky posts) site.postPageSize n h)

/- ### Claim theorems -/

/-- C1: for every collection of blog posts, blog listing page `n` (0-based
index into the generated pages; the page addressed as `/blog/{n+1}`)
contains exactly the posts at indices `n*pageSize` through
`n*pageSize + pageSize - 1` of the sticky-then-date ordering, where
`pageSize` is `site.postPageSize` and the pages are produced by
`getStaticPaths` via `paginate` over the `orderBySticky` output. -/
theorem blog_page_slice (posts : List Post) (n : Nat)
    (h : n < (getStaticPaths posts).length) :
    ((getStaticPaths posts).get ⟨n, h⟩).data
      = ((orderBySticky posts).drop (n * site.postPageSize)).take site.postPageSize :=
  getStaticPaths_get_data posts n h

/-- Witness for C1 at the concrete three-post collection and page index 0. -/
theorem blog_page_slice_check :
    ((getStaticPaths demoPosts).get ⟨0, by decide⟩).data
      = ((orderBySticky demoPosts).drop (0 * site.postPageSize)).take site.postPageSize :=
  blog_page_slice demoPosts 0 (by decide)

/-- C2: in the output of `orderBySticky`, every sticky post appears before
every non-sticky post regardless of dates, posts of equal stickiness appear
in date order (newest first), and this ordered list is exactly the one
`getStaticPaths` slices into fixed-size pages. -/
theorem orderBySticky_sticky_first (posts : List Post) :
    (orderBySticky posts).Pairwise
        (fun a b => (b.sticky = true → a.sticky = true)
          ∧ (a.sticky = b.sticky → b.date ≤ a.date))
      ∧ getStaticPaths posts = paginate (orderBySticky posts) site.postPageSize := by
  constructor
  · have hs := List.sorted_insertionSort stickyLeP posts
    refine hs.imp ?_
    intro a b hab
    unfold stickyLeP stickyLe at hab
    cases ha : a.sticky <;> cases hb : b.sticky <;>
      simp [ha, hb] at hab ⊢ <;> omega
  · rfl

/-- C3: the sort and page-slicing utilities are pure and stateless — on
equal input arrays, two runs produce equal outputs, the result depending on
nothing besides the input array. -/
theorem pipeline_deterministic (l1 l2 : List Post) (h : l1 = l2) :
    orderBySticky l1 = orderBySticky l2 ∧ ∀ ps, paginate l1 ps = paginate l2 ps := by
  subst h
  exact ⟨rfl, fun _ => rfl⟩

/-- Witness for C3 at the concrete three-post collection. -/
theorem pipeline_deterministic_check :
    orderBySticky demoPosts = orderBySticky demoPosts
      ∧ paginate demoPosts site.postPageSize = paginate demoPosts site.postPageSize :=
  ⟨(pipeline_deterministic demoPosts demoPosts rfl).1,
    (pipeline_deterministic demoPosts demoPosts rfl).2 site.postPageSize⟩

/-- C4: computing the home page's displayed posts keeps no mutable state —
the loaded posts array (the result of `getCollectionByName`, as passed to
`orderBySticky`) is unchanged by the page-size truncation step, its length
and elements included (the `splice` acts on the fresh array returned by the
pure `orderBySticky`, not on the loaded one). -/
theorem index_preserves_collection (posts : List Post) :
    (indexPage posts).blogsAfter = getCollectionByName posts
      ∧ (indexPage posts).blogsAfter.length = (getCollectionByName posts).length :=
  ⟨rfl, rfl⟩

/-- C5 counterexample: on the empty collection, `getStaticPaths` still
yields page 1 (Astro's `paginate` emits at least one page), whereas pages
1 through `ceil(0 / pageSize)` would be no pages at all. -/
theorem blog_paths_not_exactly_ceil :
    ¬ ((getStaticPaths ([] : List Post)).map (fun pg => pg.currentPage)
        = List.range' 1 (ceilNat (List.length ([] : List Post)) site.postPageSize)) := by
  decide

/-- C5 (amended): the function `getStaticPaths` yields pages 1 through
`max 1 (ceil(N / pageSize))`, each addressed as `/blog/{page}`, and for
every nonempty collection the home page computes that same count as
`ceil(N / pageSize)`, with `site.postPageSize = 10` (on the empty
collection the home page computes 0 while one page is generated). -/
theorem blog_paths_structure (posts : List Post) :
    (getStaticPaths posts).map (fun pg => pg.currentPage)
        = List.range' 1 (max 1 (ceilNat posts.length site.postPageSize))
      ∧ (∀ pg ∈ getStaticPaths posts,
          pg.url.current = "/blog/" ++ toString pg.currentPage)
      ∧ (posts ≠ [] → (indexPage posts).totalPage = (getStaticPaths posts).length)
      ∧ site.postPageSize = 10 := by
  refine ⟨?_, ?_, ?_, rfl⟩
  · simp [getStaticPaths, getCollectionByName, paginate, pageAt, List.map_map,
      Function.comp, List.range'_eq_map_range, orderBySticky_length, Nat.add_comm]
  · intro pg hpg
    simp only [getStaticPaths, getCollectionByName, paginate, List.mem_map] at hpg
    obtain ⟨num, hnum, rfl⟩ := hpg
    simp [pageAt]
  · intro hne
    have hlen : 0 < posts.length := List.length_pos.mpr hne
    simp [indexPage, getStaticPaths, getCollectionByName, length_paginate,
      orderBySticky_length, site, ceilNat]
    omega

/-- Witness for C5 (amended) at the concrete three-post collection. -/
theorem blog_paths_structure_check :
    (getStaticPaths demoPosts).map (fun pg => pg.currentPage)
        = List.range' 1 (max 1 (ceilNat demoPosts.length site.postPageSize))
      ∧ ((getStaticPaths demoPosts).get ⟨0, by decide⟩).url.current
          = "/blog/" ++ toString ((getStaticPaths demoPosts).get ⟨0, by decide⟩).currentPage
      ∧ (indexPage demoPosts).totalPage = (getStaticPaths demoPosts).length :=
  ⟨(blog_paths_structure demoPosts).1,
    (blog_paths_structure demoPosts).2.1 _ (List.get_mem _ _ _),
    (blog_paths_structure demoPosts).2.2.1 (by decide)⟩

/-- C6: every blog post record carries the frontmatter fields title, date,
category, tags and a sticky flag (structurally, and concretely on the
`go_scheduler.md` record), and every pagination descriptor carries a
current page, a total page count and prev/next URLs. -/
theorem records_carry_fields :
    (∀ p : Post,
        p = { title := p.title, description := p.description, date := p.date,
              category := p.category, tags := p.tags, sticky := p.sticky })
      ∧ (∀ pg : PageRecord,
          pg = { data := pg.data, start := pg.start, stop := pg.stop, size := pg.size,
                 total := pg.total, currentPage := pg.currentPage,
                 lastPage := pg.lastPage,
                 url := { current := pg.url.current, prev := pg.url.prev,
                          next := pg.url.next } })
      ∧ goSchedulerPost.title = "Goroutines and Go Scheduler"
      ∧ goSchedulerPost.date = 20250110
      ∧ goSchedulerPost.category = "Golang"
      ∧ goSchedulerPost.tags = ["Goroutine", "Scheduler"]
      ∧ goSchedulerPost.sticky = false :=
  ⟨fun _ => rfl, fun _ => rfl, rfl, rfl, rfl, rfl, rfl⟩

/-- C7: the listing pipeline defines no error handling of its own — a
failed collection load propagates unchanged through both pages'
computations, and a successful load is transformed without any error
branch of the pipeline's making. -/
theorem no_custom_error_handling {ε : Type} (e : ε) (posts : List Post) :
    loadToPages (Except.error e) = (Except.error e : Except ε (List PageRecord))
      ∧ loadToIndex (Except.error e) = (Except.error e : Except ε IndexPageResult)
      ∧ loadToPages (Except.ok posts) = Except.ok (ε := ε) (getStaticPaths posts)
      ∧ loadToIndex (Except.ok posts) = Except.ok (ε := ε) (indexPage posts) :=
  ⟨rfl, rfl, rfl, rfl⟩

/-- C8: pagination partitions the sorted posts — concatenating the pages
in page order reproduces the sticky-then-date ordering (so each post sits
on exactly one page), every page holds at most `site.postPageSize` (10)
posts, and every page except possibly the last holds exactly 10. -/
theorem pagination_partitions (posts : List Post) :
    ((getStaticPaths posts).map (fun pg => pg.data)).flatten = orderBySticky posts
      ∧ (∀ pg ∈ getStaticPaths posts, pg.data.length ≤ site.postPageSize)
      ∧ (∀ (i : Nat) (hi : i < (getStaticPaths posts).length),
          i + 1 < (getStaticPaths posts).length →
          ((getStaticPaths posts).get ⟨i, hi⟩).data.length = site.postPageSize)
      ∧ site.postPageSize = 10 := by
  refine ⟨?_, ?_, ?_, rfl⟩
  · have h1 : (getStaticPaths posts).map (fun pg => pg.data)
        = (List.range (max 1 (ceilNat (orderBySticky posts).length 10))).map
            (fun num => ((orderBySticky posts).drop (num * 10)).take 10) := by
      simp [getStaticPaths, getCollectionByName, paginate, List.map_map,
        Function.comp, pageAt_data, site]
    rw [h1, join_chunks]
    refine List.take_of_length_le ?_
    unfold ceilNat
    omega
  · intro pg hpg
    simp only [getStaticPaths, getCollectionByName, paginate, List.mem_map] at hpg
    obtain ⟨num, hnum, rfl⟩ := hpg
    rw [pageAt_data]
    simp [List.length_take, site]
  · intro i hi hlast
    have hlen2 : (getStaticPaths posts).length
        = max 1 (ceilNat (orderBySticky posts).length 10) := by
      simp [getStaticPaths, getCollectionByName, length_paginate, site]
    rw [hlen2] at hlast
    unfold ceilNat at hlast
    rw [getStaticPaths_get_data posts i hi]
    simp [List.length_take, List.length_drop, site]
    omega

/-- Witness for C8 at the concrete eleven-post collection (two pages). -/
theorem pagination_partitions_check :
    ((getStaticPaths demoPosts11).map (fun pg => pg.data)).flatten
        = orderBySticky demoPosts11
      ∧ ((getStaticPaths demoPosts11).get ⟨0, by decide⟩).data.length ≤ site.postPageSize
      ∧ ((getStaticPaths demoPosts11).get ⟨0, by decide⟩).data.length = site.postPageSize :=
  ⟨(pagination_partitions demoPosts11).1,
    (pagination_partitions demoPosts11).2.1 _ (List.get_mem _ _ _),
    (pagination_partitions demoPosts11).2.2.1 0 (by decide) (by decide)⟩

/-- C9 counterexample: on the empty collection the home page's
`totalPage` (0, from `ceil(0/10)`) differs from the `lastPage` (1) carried
by the page that `paginate` still generates. -/
theorem home_totalPage_counterexample :
    ¬ ((getStaticPaths ([] : List Post)).map (fun pg => pg.lastPage)
        = (getStaticPaths ([] : List Post)).map
            (fun _ => (indexPage ([] : List Post)).totalPage)) := by
  decide

/-- C9 (amended): the home page and blog page 1 agree on content — the
posts the home page renders (the `splice` truncation of the `orderBySticky`
output) equal `page.data` of `/blog/1` — and for every nonempty collection
the home page's `totalPage` equals paginate's `lastPage` (on the empty
collection they differ, 0 against 1). -/
theorem home_agrees_with_page_one (posts : List Post)
    (h1 : 0 < (getStaticPaths posts).length) :
    (indexPage posts).displayed = ((getStaticPaths posts).get ⟨0, h1⟩).data
      ∧ (posts ≠ [] →
          (indexPage posts).totalPage
            = ((getStaticPaths posts).get ⟨0, h1⟩).lastPage) := by
  constructor
  · rw [getStaticPaths_get_data posts 0 h1]
    simp only [Nat.zero_mul, List.drop_zero]
    by_cases hc : site.postPageSize < (orderBySticky posts).length
    · simp [indexPage, getCollectionByName, splice, hc]
    · simp [indexPage, getCollectionByName, splice, hc]
      omega
  · intro hne
    have hlen : 0 < posts.length := List.length_pos.mpr hne
    rw [getStaticPaths_get_lastPage posts 0 h1]
    simp [indexPage, getCollectionByName, orderBySticky_length, site, ceilNat]
    omega

/-- Witness for C9 (amended) at the concrete three-post collection. -/
theorem home_agrees_with_page_one_check :
    (indexPage demoPosts).displayed
        = ((getStaticPaths demoPosts).get ⟨0, by decide⟩).data
      ∧ (indexPage demoPosts).totalPage
          = ((getStaticPaths demoPosts).get ⟨0, by decide⟩).lastPage :=
  ⟨(home_agrees_with_page_one demoPosts (by decide)).1,
    (home_agrees_with_page_one demoPosts (by decide)).2 (by decide)⟩

/-- C10: the home page renders its pagination control iff the total page
count exceeds 1, i.e. iff more than `site.postPageSize` posts exist, and
when rendered it has `currentPage` 1, an empty prev URL and next URL
`/blog/2`. -/
theorem home_pagination_toggle (posts : List Post) :
    ((indexPagination posts).isSome ↔ site.postPageSize < posts.length)
      ∧ ((indexPagination posts).isSome ↔ 1 < (indexPage posts).totalPage)
      ∧ (∀ pr, indexPagination posts = some pr →
          pr.currentPage = 1 ∧ pr.totalPage = (indexPage posts).totalPage
            ∧ pr.prevUrl = "" ∧ pr.nextUrl = "/blog/2") := by
  have htot : (indexPage posts).totalPage = (posts.length + 10 - 1) / 10 := rfl
  by_cases hc : 1 < (indexPage posts).totalPage
  · have hlen : site.postPageSize < posts.length := by
      rw [htot] at hc
      simp [site]
      omega
    refine ⟨?_, ?_, ?_⟩
    · simp [indexPagination, hc, hlen]
    · simp [indexPagination, hc]
    · intro pr hpr
      simp [indexPagination, hc] at hpr
      subst hpr
      exact ⟨rfl, rfl, rfl, rfl⟩
  · have hlen : ¬ site.postPageSize < posts.length := by
      rw [htot] at hc
      simp [site] at hc ⊢
      omega
    refine ⟨?_, ?_, ?_⟩
    · simp [indexPagination, hc, hlen]
    · simp [indexPagination, hc]
    · intro pr hpr
      simp [indexPagination, hc] at hpr

/-- Witness for C10 at the concrete eleven-post collection, whose control
is rendered as page 1 of 2. -/
theorem home_pagination_toggle_check :
    (indexPagination demoPosts11).isSome
      ∧ (homeProps11.currentPage = 1
          ∧ homeProps11.totalPage = (indexPage demoPosts11).totalPage
          ∧ homeProps11.prevUrl = "" ∧ homeProps11.nextUrl = "/blog/2") :=
  ⟨(home_pagination_toggle demoPosts11).1.mpr (by decide),
    (home_pagination_toggle demoPosts11).2.2 homeProps11 (by decide)⟩

end Blog
